import Mathlib

/-!
Shallow embedding of `src/mod.ts` of `is-executable-es`: a predicate library
deciding whether a file is executable on the host operating system.

The TypeScript module exposes `isExecutable` (async) and `isExecutableSync`
(blocking).  Both fetch file metadata from the stat collaborator
(`node:fs` / `node:fs/promises`) and dispatch to one of two pure rules:

* `isExecutablePosix` — POSIX permission bits against an effective identity;
* `isExecutableWindows` — file extension against the process `PATHEXT` list.

External collaborators (stat results, ambient process identity, the parsed
`PATHEXT` list, the host platform flag, whether the `Deno` global is defined)
are modelled as explicit inputs; JavaScript exceptions are modelled with
`Except`.  Machine numbers are modelled as `Int` (ids) and `Nat` (mode
bitmask); JavaScript string lower-casing is modelled on its ASCII fragment
(`Char.toLower`), which covers every string these claims mention.
-/

/-- A thrown JavaScript error, as far as the module under study inspects it:
whether it is an `instanceof Deno.errors.NotFound`, its optional `code`
property, and its message. -/
structure JsError where
  instanceofDenoNotFound : Bool
  code : Option String
  message : String
deriving DecidableEq, Repr

/-- The fields of `node:fs`'s `Stats` that `src/mod.ts` reads: `isFile()`,
`mode`, `uid`, `gid`.  The source defensively treats the numeric fields as
possibly `null`, hence `Option`. -/
structure NodeFsStats where
  isFile : Bool
  mode : Option Nat
  uid : Option Int
  gid : Option Int
deriving DecidableEq, Repr

/-- `IsExecutableOptions` of `src/mod.ts`: all fields optional. -/
structure IsExecutableOptions where
  mayNotExist : Option Bool := none
  gid : Option Int := none
  uid : Option Int := none
deriving DecidableEq, Repr

/-- Process-wide ambient facts the module reads: the platform flag
(`platform === "win32"`), whether the `Deno` global is defined, the ambient
identity from `node:process` (`getgid?.() ?? null`, `getuid?.() ?? null`),
the ambient identity from `Deno.gid()` / `Deno.uid()` (which return
`number | null`), and the parsed `PATHEXT` list `envPathExt.get()`
(`string[] | null`). -/
structure RuntimeEnv where
  isOSWindows : Bool
  denoDefined : Bool
  nodeGid : Option Int
  nodeUid : Option Int
  denoGid : Option Int
  denoUid : Option Int
  pathExts : Option (List String)
deriving DecidableEq, Repr

/-- `path.win32.extname` scan state (Node.js `lib/path.js`): `startDot`,
`startPart`, `end`, `matchedSlash`, `preDotState`, plus a flag recording that
the loop has executed `break`. -/
structure ExtnameState where
  startDot : Int
  startPart : Int
  endIdx : Int
  matchedSlash : Bool
  preDotState : Int
  broke : Bool
deriving DecidableEq, Repr

/-- Windows path separator (`/` or `\`), per Node.js `isPathSeparator`. -/
def isPathSeparatorWin32 (c : Char) : Bool :=
  c == '/' || c == '\\'

/-- Node.js `isWindowsDeviceRoot`: an ASCII letter. -/
def isWindowsDeviceRoot (c : Char) : Bool :=
  ('A' ≤ c && c ≤ 'Z') || ('a' ≤ c && c ≤ 'z')

/-- One iteration of the backwards scan of Node.js `path.win32.extname`,
processing character `c` at index `i`. -/
def extnameStep (st : ExtnameState) (i : Nat) (c : Char) : ExtnameState :=
  if st.broke then st
  else if isPathSeparatorWin32 c then
    if !st.matchedSlash then { st with startPart := (i : Int) + 1, broke := true }
    else st
  else
    let st1 :=
      if st.endIdx == -1 then { st with matchedSlash := false, endIdx := (i : Int) + 1 }
      else st
    if c == '.' then
      if st1.startDot == -1 then { st1 with startDot := (i : Int) }
      else if st1.preDotState != 1 then { st1 with preDotState := 1 }
      else st1
    else if st1.startDot != -1 then { st1 with preDotState := -1 }
    else st1

/-- Node.js `path.win32.extname` (the `pathExtname` collaborator of
`src/mod.ts` on a Windows host): skip a drive-letter prefix, scan the path
backwards up to the last path separator, and return the final component's
extension from its last dot — with the dotfile / `..` cases returning `""`. -/
def extname (path : String) : String :=
  let chars := path.data
  let len := chars.length
  let drive : Bool :=
    2 ≤ len && chars.getD 1 ' ' == ':' && isWindowsDeviceRoot (chars.getD 0 ' ')
  let start : Nat := if drive then 2 else 0
  let init : ExtnameState :=
    { startDot := -1, startPart := (if drive then 2 else 0), endIdx := -1,
      matchedSlash := true, preDotState := 0, broke := false }
  let st := ((List.range' start (len - start)).reverse).foldl
    (fun s i => extnameStep s i (chars.getD i ' ')) init
  if st.startDot == -1 || st.endIdx == -1 || st.preDotState == 0 ||
      (st.preDotState == 1 && st.startDot == st.endIdx - 1 &&
        st.startDot == st.startPart + 1) then
    ""
  else
    String.mk ((chars.drop st.startDot.toNat).take (st.endIdx - st.startDot).toNat)

/-- JavaScript `String.prototype.toLowerCase` on its ASCII fragment,
character by character. -/
def jsToLowerCase (s : String) : String :=
  String.mk (s.data.map Char.toLower)

/-- `isExecutablePosix` of `src/mod.ts` (lines 29–62): `false` for
non-regular files; resolve the effective identity from the options, else from
`Deno.gid()`/`Deno.uid()` when `Deno` is defined, else from
`getgid?.()`/`getuid?.()`; throw when identity or a required stat field is
unavailable; otherwise test the execute bits `0o001`, `0o010`, `0o100`. -/
def isExecutablePosix (env : RuntimeEnv) (stat : NodeFsStats)
    (options : IsExecutableOptions) : Except JsError Bool :=
  if !stat.isFile then .ok false
  else
    let ownGid : Option Int :=
      options.gid <|> (if !env.denoDefined then env.nodeGid else env.denoGid)
    let ownUid : Option Int :=
      options.uid <|> (if !env.denoDefined then env.nodeUid else env.denoUid)
    match ownGid with
    | none => .error ⟨false, none, "Unable to get the group ID of the process!"⟩
    | some ownGid =>
      match ownUid with
      | none => .error ⟨false, none, "Unable to get the user ID of the process!"⟩
      | some ownUid =>
        match stat.gid with
        | none => .error ⟨false, none, "Unable to get the group ID of the file!"⟩
        | some pathGid =>
          match stat.mode with
          | none => .error ⟨false, none, "Unable to get the mode of the file!"⟩
          | some pathMode =>
            match stat.uid with
            | none => .error ⟨false, none, "Unable to get the user ID of the file!"⟩
            | some pathUid =>
              let g : Nat := 8
              let o : Nat := 1
              let u : Nat := 64
              .ok ((pathMode &&& o != 0) ||
                ((pathMode &&& g != 0) && ownGid == pathGid) ||
                ((pathMode &&& u != 0) && pathUid == ownUid) ||
                ((pathMode &&& (u ||| g) != 0) && ownUid == 0))

/-- `isExecutableWindows` of `src/mod.ts` (lines 70–81): `false` for
non-regular files; `true` when `envPathExt.get()` is `null`; otherwise
membership of the lower-cased extension in the lower-cased list. -/
def isExecutableWindows (env : RuntimeEnv) (stat : NodeFsStats)
    (filePath : String) : Bool :=
  if !stat.isFile then false
  else
    match env.pathExts with
    | none => true
    | some pathExts =>
      (pathExts.map jsToLowerCase).contains (jsToLowerCase (extname filePath))

/-- `isExecutable` of `src/mod.ts` (lines 97–114).  The metadata-fetch
outcome of `fsStat filePath` is an explicit input `statResult`.  The `catch`
block sees any error thrown in the `try` body and suppresses it into `false`
exactly when `mayNotExist` holds and the error is an
`instanceof Deno.errors.NotFound` (with `Deno` defined) or has
`code === "EACCES"`. -/
def isExecutable (env : RuntimeEnv) (filePath : String)
    (options : IsExecutableOptions) (statResult : Except JsError NodeFsStats) :
    Except JsError Bool :=
  let mayNotExist := options.mayNotExist.getD false
  let tryBody : Except JsError Bool :=
    match statResult with
    | .error e => .error e
    | .ok pathStat =>
      if env.isOSWindows then .ok (isExecutableWindows env pathStat filePath)
      else isExecutablePosix env pathStat options
  match tryBody with
  | .ok r => .ok r
  | .error e =>
    if mayNotExist &&
        ((env.denoDefined && e.instanceofDenoNotFound) || e.code == some "EACCES") then
      .ok false
    else .error e

/-- `isExecutableSync` of `src/mod.ts` (lines 131–148): textually the same
body as `isExecutable`, with the blocking `fsStatSync` as the metadata
fetch. -/
def isExecutableSync (env : RuntimeEnv) (filePath : String)
    (options : IsExecutableOptions) (statResult : Except JsError NodeFsStats) :
    Except JsError Bool :=
  let mayNotExist := options.mayNotExist.getD false
  let tryBody : Except JsError Bool :=
    match statResult with
    | .error e => .error e
    | .ok pathStat =>
      if env.isOSWindows then .ok (isExecutableWindows env pathStat filePath)
      else isExecutablePosix env pathStat options
  match tryBody with
  | .ok r => .ok r
  | .error e =>
    if mayNotExist &&
        ((env.denoDefined && e.instanceofDenoNotFound) || e.code == some "EACCES") then
      .ok false
    else .error e

/-- Failure kind "path does not exist", as the stat collaborator reports it
(§6 of the spec): an `instanceof Deno.errors.NotFound` on Deno, the error
code `"ENOENT"` on Node-style runtimes. -/
def isNotFoundFailure (e : JsError) : Prop :=
  e.instanceofDenoNotFound = true ∨ e.code = some "ENOENT"

/-- Failure kind "permission denied accessing path", as the stat collaborator
reports it: the error code `"EACCES"`. -/
def isPermissionDeniedFailure (e : JsError) : Prop :=
  e.code = some "EACCES"

/-- Extension extraction as the spec's words describe it for claim C3: the
substring from the last `.` of the whole path to the end, including the dot;
the empty string when the path contains no `.`.  (Second definition for a
refinement comparison; the source uses Node's `path.extname` instead.) -/
def extnameSpecLastDot (path : String) : String :=
  match path.data.reverse.findIdx? (fun c => c == '.') with
  | none => ""
  | some revIdx => String.mk (path.data.drop (path.data.length - 1 - revIdx))

/-! ## Claim theorems -/

/-- C1 (code bug evaluation): on a Node-style runtime (the `Deno` global
undefined), a metadata fetch that fails with the not-found error code
`"ENOENT"` is NOT suppressed by `mayNotExist := true`: both query variants
rethrow the error instead of returning `false`, although the failure kind is
"path does not exist". -/
theorem isExecutable_node_enoent_not_suppressed :
    isNotFoundFailure ⟨false, some "ENOENT", "ENOENT: no such file or directory"⟩ ∧
    isExecutable ⟨false, false, some 1000, some 1000, none, none, none⟩ "/missing/path"
        ⟨some true, none, none⟩
        (.error ⟨false, some "ENOENT", "ENOENT: no such file or directory"⟩) =
      .error ⟨false, some "ENOENT", "ENOENT: no such file or directory"⟩ ∧
    isExecutableSync ⟨false, false, some 1000, some 1000, none, none, none⟩ "/missing/path"
        ⟨some true, none, none⟩
        (.error ⟨false, some "ENOENT", "ENOENT: no such file or directory"⟩) =
      .error ⟨false, some "ENOENT", "ENOENT: no such file or directory"⟩ :=
  ⟨Or.inr rfl, rfl, rfl⟩

/-- Only the exponents 6 and 3 contribute to a conjunction with `0o110`:
`m &&& 72` is nonzero exactly when `m &&& 64` or `m &&& 8` is. -/
lemma land_seventytwo_ne_zero (m : Nat) :
    m &&& 72 ≠ 0 ↔ (m &&& 64 ≠ 0 ∨ m &&& 8 ≠ 0) := by
  have h : m &&& 72 = (m &&& 64) ||| (m &&& 8) := by
    rw [show (72 : Nat) = 64 ||| 8 from by rfl, Nat.and_or_distrib_left]
  have h64 : m &&& 64 = (m.testBit 6).toNat * 64 := by
    simpa using Nat.and_two_pow m 6
  have h8 : m &&& 8 = (m.testBit 3).toNat * 8 := by
    simpa using Nat.and_two_pow m 3
  rw [h, h64, h8]
  cases m.testBit 6 <;> cases m.testBit 3 <;> simp

/-- C2: for a regular file with `mode`, `uid`, `gid` all present and the
identity `(u, g)` fixed by the options, the POSIX rule returns `true` exactly
when the other-execute bit `0o001` is set, or the group-execute bit `0o010`
is set and `g` equals the owner group id, or the owner-execute bit `0o100` is
set and `u` equals the owner user id, or one of the owner/group execute bits
is set and `u = 0`; and it returns `false` exactly otherwise. -/
theorem isExecutablePosix_bit_characterization (env : RuntimeEnv)
    (stat : NodeFsStats) (options : IsExecutableOptions) (m : Nat)
    (u g pu pg : Int)
    (hf : stat.isFile = true) (hm : stat.mode = some m)
    (hpu : stat.uid = some pu) (hpg : stat.gid = some pg)
    (hou : options.uid = some u) (hog : options.gid = some g) :
    (isExecutablePosix env stat options = .ok true ↔
      (m &&& 1 ≠ 0 ∨ ((m &&& 8 ≠ 0) ∧ g = pg) ∨ ((m &&& 64 ≠ 0) ∧ u = pu) ∨
        ((m &&& 64 ≠ 0 ∨ m &&& 8 ≠ 0) ∧ u = 0))) ∧
    (isExecutablePosix env stat options = .ok false ↔
      ¬ (m &&& 1 ≠ 0 ∨ ((m &&& 8 ≠ 0) ∧ g = pg) ∨ ((m &&& 64 ≠ 0) ∧ u = pu) ∨
        ((m &&& 64 ≠ 0 ∨ m &&& 8 ≠ 0) ∧ u = 0))) := by
  have hchar : isExecutablePosix env stat options =
      .ok ((m &&& 1 != 0) || ((m &&& 8 != 0) && g == pg) ||
        ((m &&& 64 != 0) && pu == u) || ((m &&& 72 != 0) && u == 0)) := by
    simp [isExecutablePosix, hf, hm, hpu, hpg, hou, hog]
  have hmain : ((m &&& 1 != 0) || ((m &&& 8 != 0) && g == pg) ||
        ((m &&& 64 != 0) && pu == u) || ((m &&& 72 != 0) && u == 0)) = true ↔
      (m &&& 1 ≠ 0 ∨ ((m &&& 8 ≠ 0) ∧ g = pg) ∨ ((m &&& 64 ≠ 0) ∧ u = pu) ∨
        ((m &&& 64 ≠ 0 ∨ m &&& 8 ≠ 0) ∧ u = 0)) := by
    simp only [Bool.or_eq_true, Bool.and_eq_true, bne_iff_ne, beq_iff_eq, ne_eq,
      land_seventytwo_ne_zero]
    constructor
    · rintro (((h | ⟨h1, h2⟩) | ⟨h1, h2⟩) | ⟨h1, h2⟩)
      · exact Or.inl h
      · exact Or.inr (Or.inl ⟨h1, h2⟩)
      · exact Or.inr (Or.inr (Or.inl ⟨h1, h2.symm⟩))
      · exact Or.inr (Or.inr (Or.inr ⟨h1, h2⟩))
    · rintro (h | ⟨h1, h2⟩ | ⟨h1, h2⟩ | ⟨h1, h2⟩)
      · exact Or.inl (Or.inl (Or.inl h))
      · exact Or.inl (Or.inl (Or.inr ⟨h1, h2⟩))
      · exact Or.inl (Or.inr ⟨h1, h2.symm⟩)
      · exact Or.inr ⟨h1, h2⟩
  constructor
  · rw [hchar]
    simp only [Except.ok.injEq]
    exact hmain
  · rw [hchar]
    simp only [Except.ok.injEq, Bool.eq_false_iff]
    exact not_congr hmain

/-- Witness for C2 at mode `0o111`, identity `(5, 20)`, owner `(7, 20)`. -/
theorem isExecutablePosix_bit_characterization_witness :
    ((⟨true, some 73, some 7, some 20⟩ : NodeFsStats).isFile = true) ∧
    (isExecutablePosix ⟨false, false, none, none, none, none, none⟩
        ⟨true, some 73, some 7, some 20⟩ ⟨none, some 20, some 5⟩ = .ok true ↔
      ((73 : Nat) &&& 1 ≠ 0 ∨ (((73 : Nat) &&& 8 ≠ 0) ∧ (20 : Int) = 20) ∨
        (((73 : Nat) &&& 64 ≠ 0) ∧ (5 : Int) = 7) ∨
        (((73 : Nat) &&& 64 ≠ 0 ∨ (73 : Nat) &&& 8 ≠ 0) ∧ (5 : Int) = 0))) ∧
    (isExecutablePosix ⟨false, false, none, none, none, none, none⟩
        ⟨true, some 73, some 7, some 20⟩ ⟨none, some 20, some 5⟩ = .ok false ↔
      ¬ ((73 : Nat) &&& 1 ≠ 0 ∨ (((73 : Nat) &&& 8 ≠ 0) ∧ (20 : Int) = 20) ∨
        (((73 : Nat) &&& 64 ≠ 0) ∧ (5 : Int) = 7) ∨
        (((73 : Nat) &&& 64 ≠ 0 ∨ (73 : Nat) &&& 8 ≠ 0) ∧ (5 : Int) = 0))) :=
  ⟨rfl, isExecutablePosix_bit_characterization
    ⟨false, false, none, none, none, none, none⟩
    ⟨true, some 73, some 7, some 20⟩ ⟨none, some 20, some 5⟩
    73 5 20 7 20 rfl rfl rfl rfl rfl rfl⟩

/-- C3 (counterexample): the claim describes the extension as "the substring
from the last dot of the path to its end, empty when the path has no dot".
At the path `".EXE"` with list `[".exe"]` that description predicts `true`
(the described extension is `".EXE"`, lower-cased `".exe"`, a member), but
`path.extname` treats a sole leading dot as a dotfile and yields `""`, so the
Windows rule returns `false`: the stated iff fails. -/
theorem isExecutableWindows_lastDot_extraction_cex :
    ¬ (isExecutableWindows ⟨true, true, none, none, none, none, some [".exe"]⟩
        ⟨true, none, none, none⟩ ".EXE" = true ↔
      jsToLowerCase (extnameSpecLastDot ".EXE") ∈ ([".exe"].map jsToLowerCase)) := by
  decide

/-- C3 (amended): for a regular file and a present `executableExtensions`
list, the Windows rule returns `true` exactly when the lower-cased
`path.extname` extension of the path (Node semantics: taken from the final
path component; dotfiles and `..` yield the empty extension) is a member of
the lower-cased list. -/
theorem isExecutableWindows_extension_membership (env : RuntimeEnv)
    (stat : NodeFsStats) (filePath : String) (exts : List String)
    (hf : stat.isFile = true) (hp : env.pathExts = some exts) :
    isExecutableWindows env stat filePath = true ↔
      jsToLowerCase (extname filePath) ∈ exts.map jsToLowerCase := by
  simp [isExecutableWindows, hf, hp, List.elem_iff]

/-- Witness for C3: `"RUN.EXE"` against `[".exe"]`. -/
theorem isExecutableWindows_extension_membership_witness :
    ((⟨true, none, none, none⟩ : NodeFsStats).isFile = true) ∧
    (isExecutableWindows ⟨true, true, none, none, none, none, some [".exe"]⟩
        ⟨true, none, none, none⟩ "RUN.EXE" = true ↔
      jsToLowerCase (extname "RUN.EXE") ∈ ([".exe"].map jsToLowerCase)) :=
  ⟨rfl, isExecutableWindows_extension_membership
    ⟨true, true, none, none, none, none, some [".exe"]⟩
    ⟨true, none, none, none⟩ "RUN.EXE" [".exe"] rfl rfl⟩

/-- C4: for metadata that is not a regular file, the POSIX rule returns
`false` (without error) and the Windows rule returns `false`, whatever the
mode bits, identity sources, path and extension list. -/
theorem rules_false_of_not_regular (env : RuntimeEnv) (stat : NodeFsStats)
    (options : IsExecutableOptions) (filePath : String)
    (h : stat.isFile = false) :
    isExecutablePosix env stat options = .ok false ∧
      isExecutableWindows env stat filePath = false := by
  constructor <;> simp [isExecutablePosix, isExecutableWindows, h]

/-- Witness for C4: a directory-like stat with mode `0o111`. -/
theorem rules_false_of_not_regular_witness :
    ((⟨false, some 73, some 0, some 0⟩ : NodeFsStats).isFile = false) ∧
    (isExecutablePosix ⟨true, true, none, none, none, none, some [".exe"]⟩
        ⟨false, some 73, some 0, some 0⟩ ⟨none, none, none⟩ = .ok false ∧
      isExecutableWindows ⟨true, true, none, none, none, none, some [".exe"]⟩
        ⟨false, some 73, some 0, some 0⟩ "run.exe" = false) :=
  ⟨rfl, rules_false_of_not_regular ⟨true, true, none, none, none, none, some [".exe"]⟩
    ⟨false, some 73, some 0, some 0⟩ ⟨none, none, none⟩ "run.exe" rfl⟩

/-- C5: for a regular file with mode `0o100` owned by a different user, an
effective uid of `0` makes the POSIX rule return `true` (superuser bypass of
the owner match). -/
theorem isExecutablePosix_superuser_bypass (env : RuntimeEnv)
    (stat : NodeFsStats) (g pu pg : Int)
    (hf : stat.isFile = true) (hm : stat.mode = some 64)
    (hu : stat.uid = some pu) (hg : stat.gid = some pg) (hpu : pu ≠ 0) :
    isExecutablePosix env stat ⟨none, some g, some 0⟩ = .ok true := by
  simp [isExecutablePosix, hf, hm, hu, hg, hpu]

/-- Witness for C5: owner uid `500`, effective uid `0`. -/
theorem isExecutablePosix_superuser_bypass_witness :
    ((⟨true, some 64, some 500, some 500⟩ : NodeFsStats).isFile = true ∧
      (500 : Int) ≠ 0) ∧
    isExecutablePosix ⟨false, false, some 1000, some 1000, none, none, none⟩
      ⟨true, some 64, some 500, some 500⟩ ⟨none, some 7, some 0⟩ = .ok true :=
  ⟨⟨rfl, by decide⟩, isExecutablePosix_superuser_bypass
    ⟨false, false, some 1000, some 1000, none, none, none⟩
    ⟨true, some 64, some 500, some 500⟩ 7 500 500 rfl rfl rfl rfl (by decide)⟩

/-- C6: when `envPathExt.get()` is `null` (no recognized extension list), the
Windows rule returns `true` for every regular file and every path. -/
theorem isExecutableWindows_absent_pathext_true (env : RuntimeEnv)
    (stat : NodeFsStats) (filePath : String)
    (hf : stat.isFile = true) (hp : env.pathExts = none) :
    isExecutableWindows env stat filePath = true := by
  simp [isExecutableWindows, hf, hp]

/-- Witness for C6: `"run.txt"` with the list absent. -/
theorem isExecutableWindows_absent_pathext_true_witness :
    ((⟨true, none, none, none⟩ : NodeFsStats).isFile = true) ∧
    isExecutableWindows ⟨true, true, none, none, none, none, none⟩
      ⟨true, none, none, none⟩ "run.txt" = true :=
  ⟨rfl, isExecutableWindows_absent_pathext_true
    ⟨true, true, none, none, none, none, none⟩ ⟨true, none, none, none⟩
    "run.txt" rfl rfl⟩

/-- C7: a metadata-fetch failure that is not suppressed — `mayNotExist`
defaulted or `false`, or a failure kind that is neither "path does not
exist" nor "permission denied accessing path" — is propagated by both query
variants as the very same error value (same kind, same message). -/
theorem query_propagates_unsuppressed_failure (env : RuntimeEnv)
    (filePath : String) (options : IsExecutableOptions) (e : JsError)
    (h : options.mayNotExist.getD false = false ∨
      (¬ isNotFoundFailure e ∧ ¬ isPermissionDeniedFailure e)) :
    isExecutable env filePath options (.error e) = .error e ∧
      isExecutableSync env filePath options (.error e) = .error e := by
  have hcond : (options.mayNotExist.getD false &&
      ((env.denoDefined && e.instanceofDenoNotFound) || e.code == some "EACCES")) = false := by
    rcases h with h | ⟨hnf, hpd⟩
    · simp [h]
    · have hnf2 : ¬(e.instanceofDenoNotFound = true ∨ e.code = some "ENOENT") := hnf
      push_neg at hnf2
      have h1 : e.instanceofDenoNotFound = false := by
        cases hb : e.instanceofDenoNotFound
        · rfl
        · exact absurd hb hnf2.1
      have hpd2 : ¬ e.code = some "EACCES" := hpd
      have h2 : (e.code == some "EACCES") = false := by
        simpa using hpd2
      simp [h1, h2]
  constructor <;> simp [isExecutable, isExecutableSync, hcond]

/-- Witness for C7: an `"EIO"` failure with `mayNotExist := true`. -/
theorem query_propagates_unsuppressed_failure_witness :
    (¬ isNotFoundFailure ⟨false, some "EIO", "io error"⟩ ∧
      ¬ isPermissionDeniedFailure ⟨false, some "EIO", "io error"⟩) ∧
    (isExecutable ⟨false, true, some 0, some 0, some 0, some 0, none⟩ "/some/path"
        ⟨some true, none, none⟩ (.error ⟨false, some "EIO", "io error"⟩) =
      .error ⟨false, some "EIO", "io error"⟩ ∧
      isExecutableSync ⟨false, true, some 0, some 0, some 0, some 0, none⟩ "/some/path"
        ⟨some true, none, none⟩ (.error ⟨false, some "EIO", "io error"⟩) =
      .error ⟨false, some "EIO", "io error"⟩) := by
  refine ⟨⟨?_, ?_⟩, ?_⟩
  · intro h
    rcases h with h | h <;> simp_all
  · intro h
    simp_all [isPermissionDeniedFailure]
  · exact query_propagates_unsuppressed_failure
      ⟨false, true, some 0, some 0, some 0, some 0, none⟩ "/some/path"
      ⟨some true, none, none⟩ ⟨false, some "EIO", "io error"⟩
      (Or.inr ⟨by intro h; rcases h with h | h <;> simp_all,
        by intro h; simp_all [isPermissionDeniedFailure]⟩)

/-- C8: the async and sync query variants are the same algorithm: given the
same platform facts, path, options and metadata-fetch outcome, they produce
the same boolean or the same propagated error. -/
theorem isExecutable_eq_isExecutableSync (env : RuntimeEnv) (filePath : String)
    (options : IsExecutableOptions) (statResult : Except JsError NodeFsStats) :
    isExecutable env filePath options statResult =
      isExecutableSync env filePath options statResult := rfl

/-- C9: the identity used by the POSIX check is resolved componentwise from
the options when present and from the ambient process identity otherwise:
for every environment, stat and options, evaluation equals evaluation in an
environment with no ambient identity at all, with the resolved pair —
`options.uid` else the ambient uid, `options.gid` else the ambient gid —
supplied as explicit overrides.  In particular an explicit `uid := 0` on a
mode-`0o100` file owned by a different, nonzero uid yields `true` in every
runtime environment, whatever its ambient identity. -/
theorem isExecutablePosix_identity_resolution (env : RuntimeEnv)
    (stat : NodeFsStats) (options : IsExecutableOptions) :
    (isExecutablePosix env stat options =
      isExecutablePosix
        ⟨env.isOSWindows, env.denoDefined, none, none, none, none, env.pathExts⟩
        stat
        ⟨options.mayNotExist,
          options.gid <|> (if !env.denoDefined then env.nodeGid else env.denoGid),
          options.uid <|> (if !env.denoDefined then env.nodeUid else env.denoUid)⟩) ∧
    (∀ (env₂ : RuntimeEnv) (gg pu pg : Int), pu ≠ 0 →
      isExecutablePosix env₂ ⟨true, some 64, some pu, some pg⟩
        ⟨none, some gg, some 0⟩ = .ok true) := by
  constructor
  · simp [isExecutablePosix]
  · intro env₂ gg pu pg hpu
    simp [isExecutablePosix, hpu]

/-- Witness for C9: a Node-identity environment with ambient `(2000, 1000)`,
a `uid := 5` override with the gid left to the ambient fallback; and the
`uid := 0` superuser case under a Deno ambient identity of `3`. -/
theorem isExecutablePosix_identity_resolution_witness :
    (isExecutablePosix ⟨false, false, some 1000, some 2000, none, none, none⟩
        ⟨true, some 73, some 7, some 1000⟩ ⟨none, none, some 5⟩ =
      isExecutablePosix ⟨false, false, none, none, none, none, none⟩
        ⟨true, some 73, some 7, some 1000⟩ ⟨none, some 1000, some 5⟩) ∧
    ((500 : Int) ≠ 0 ∧
      isExecutablePosix ⟨false, true, some 3, some 3, some 3, some 3, none⟩
        ⟨true, some 64, some 500, some 7⟩ ⟨none, some 9, some 0⟩ = .ok true) :=
  ⟨(isExecutablePosix_identity_resolution
      ⟨false, false, some 1000, some 2000, none, none, none⟩
      ⟨true, some 73, some 7, some 1000⟩ ⟨none, none, some 5⟩).1,
    by decide,
    (isExecutablePosix_identity_resolution
      ⟨false, false, some 1000, some 2000, none, none, none⟩
      ⟨true, some 73, some 7, some 1000⟩ ⟨none, none, some 5⟩).2
      ⟨false, true, some 3, some 3, some 3, some 3, none⟩ 9 500 7 (by decide)⟩

/-- C10: for a non-regular file the POSIX rule returns `false` without
raising any error, even when every identity source is unavailable and every
required stat attribute is absent. -/
theorem isExecutablePosix_not_regular_skips_resolution (env : RuntimeEnv)
    (stat : NodeFsStats) (options : IsExecutableOptions)
    (hf : stat.isFile = false)
    (hng : env.nodeGid = none) (hnu : env.nodeUid = none)
    (hdg : env.denoGid = none) (hdu : env.denoUid = none)
    (hog : options.gid = none) (hou : options.uid = none)
    (hm : stat.mode = none) (hu : stat.uid = none) (hgi : stat.gid = none) :
    isExecutablePosix env stat options = .ok false := by
  simp [isExecutablePosix, hf]

/-- Witness for C10: everything absent. -/
theorem isExecutablePosix_not_regular_skips_resolution_witness :
    ((⟨false, none, none, none⟩ : NodeFsStats).isFile = false) ∧
    isExecutablePosix ⟨false, false, none, none, none, none, none⟩
      ⟨false, none, none, none⟩ ⟨none, none, none⟩ = .ok false :=
  ⟨rfl, isExecutablePosix_not_regular_skips_resolution
    ⟨false, false, none, none, none, none, none⟩
    ⟨false, none, none, none⟩ ⟨none, none, none⟩
    rfl rfl rfl rfl rfl rfl rfl rfl rfl rfl⟩
